import Mathlib

/-!
Shallow embedding of the fytermedia tRPC routers (post, user, story, message,
notification) over an explicit relational state.  Database tables are lists of
rows; each procedure is a pure function from the state (plus the values the
runtime supplies implicitly: the session user id, fresh row ids, the current
time) to a result together with the updated state.  A thrown TRPCError is an
`Except.error` value; since every router procedure modelled here performs only
reads before any throw, an error result is paired with the unchanged state.
-/

namespace FyterMedia

/-- A row of the User table (the columns touched by the modelled procedures). -/
structure User where
  id : String
  name : Option String
  email : Option String
  username : Option String
  hashedPassword : Option String
  createdAt : Nat
  deriving DecidableEq, Repr

/-- A row of the Post table (the columns touched by the modelled procedures). -/
structure Post where
  id : String
  userId : String
  createdAt : Nat
  deriving DecidableEq, Repr

/-- A row of the Like table. -/
structure Like where
  id : String
  createdAt : Nat
  userId : String
  postId : Option String
  commentId : Option String
  deriving DecidableEq, Repr

/-- A row of the Notification table.  The SQLite migration stores the type
discriminator as TEXT, so it is a `String` here; the Prisma schema additionally
declares a NotificationType enum with uppercase members (LIKE, COMMENT, ...). -/
structure Notification where
  id : String
  type : String
  content : String
  isRead : Bool
  createdAt : Nat
  receiverId : String
  senderId : Option String
  postId : Option String
  commentId : Option String
  storyId : Option String
  reelId : Option String
  messageId : Option String
  deriving DecidableEq, Repr

/-- A row of the Story table (the columns touched by the modelled procedures). -/
structure Story where
  id : String
  userId : String
  expiresAt : Nat
  createdAt : Nat
  deriving DecidableEq, Repr

/-- A row of the StoryView table. -/
structure StoryView where
  id : String
  storyId : String
  viewerId : String
  viewedAt : Nat
  deriving DecidableEq, Repr

/-- A row of the Message table (the columns touched by the modelled procedures). -/
structure Message where
  id : String
  content : String
  contentType : String
  createdAt : Nat
  senderId : String
  receiverId : String
  readAt : Option Nat
  groupId : Option String
  deriving DecidableEq, Repr

/-- The relational store: one list of rows per table used by the claims. -/
structure DB where
  users : List User
  posts : List Post
  likes : List Like
  notifications : List Notification
  stories : List Story
  storyViews : List StoryView
  messages : List Message
  deriving DecidableEq, Repr

/-- tRPC error codes used by the modelled procedures. -/
inductive ErrCode where
  | UNAUTHORIZED
  | FORBIDDEN
  | NOT_FOUND
  | BAD_REQUEST
  deriving DecidableEq, Repr

/-- A thrown TRPCError: code plus message. -/
structure TRPCErr where
  code : ErrCode
  message : String
  deriving DecidableEq, Repr

/-- Rows returned by a Prisma findMany with an optional cursor, given the full
ordered result set of the WHERE clause: with no cursor the whole ordered set,
with a cursor the suffix starting at the row whose id equals the cursor
(Prisma positions on the cursor row and returns it first). -/
def cursorRows {α : Type} (getId : α → String) : Option String → List α → List α
  | none, l => l
  | some c, l => l.dropWhile (fun x => !(getId x == c))

/-- ORDER BY createdAt DESC as a Bool relation for mergeSort. -/
def notifOrder (a b : Notification) : Bool := b.createdAt ≤ a.createdAt

/-- notificationRouter.getAll: fetch limit + 1 rows of the caller's
notifications ordered by createdAt descending (optionally only unread), pop
the extra row if present and expose its id as nextCursor. -/
def getAll (userId : String) (limit : Nat) (cursor : Option String)
    (onlyUnread : Bool) (db : List Notification) :
    List Notification × Option String :=
  let matching := db.filter fun n =>
    n.receiverId == userId && (!onlyUnread || !n.isRead)
  let ordered := matching.mergeSort notifOrder
  let fetched := (cursorRows (fun n => n.id) cursor ordered).take (limit + 1)
  if limit < fetched.length then
    (fetched.dropLast, fetched.getLast?.map fun n => n.id)
  else
    (fetched, none)

/-- Repeated getAll pagination: start from a cursor and keep following the
returned nextCursor until it is absent, concatenating the pages.  The fuel
argument bounds the number of round trips. -/
def getAllPages (userId : String) (limit : Nat) :
    Nat → Option String → List Notification → List Notification
  | 0, _, _ => []
  | fuel + 1, cursor, db =>
    match getAll userId limit cursor false db with
    | (items, none) => items
    | (items, some c) => items ++ getAllPages userId limit fuel (some c) db

/-- notificationRouter.markAsRead: look the row up by id, reject when absent
(NOT_FOUND) or addressed to someone else (FORBIDDEN), otherwise set its isRead
flag and return the updated row. -/
def markAsRead (userId notifId : String) (s : DB) :
    Except TRPCErr Notification × DB :=
  match s.notifications.find? (fun n => n.id == notifId) with
  | none => (.error ⟨.NOT_FOUND, "Notification not found"⟩, s)
  | some n =>
    if n.receiverId ≠ userId then
      (.error ⟨.FORBIDDEN,
        "You do not have permission to mark this notification as read"⟩, s)
    else
      (.ok { n with isRead := true },
       { s with notifications := s.notifications.map fun m =>
          if m.id == notifId then { m with isRead := true } else m })

/-- notificationRouter.markAllAsRead: updateMany setting isRead on every unread
notification addressed to the caller; returns the number of rows updated. -/
def markAllAsRead (userId : String) (s : DB) : Nat × DB :=
  ((s.notifications.filter fun n => n.receiverId == userId && !n.isRead).length,
   { s with notifications := s.notifications.map fun n =>
      if n.receiverId == userId && !n.isRead then { n with isRead := true }
      else n })

/-- notificationRouter.getUnreadCount: count of the caller's unread rows. -/
def getUnreadCount (userId : String) (s : DB) : Nat :=
  (s.notifications.filter fun n => n.receiverId == userId && !n.isRead).length

/-- postRouter.like: reject a duplicate like (BAD_REQUEST) or a missing post
(NOT_FOUND); otherwise insert the Like row and, when the liker does not own
the post, one Notification row with the literal type string "like", the
content "liked your post", the liker as sender and the owner as receiver (no
postId reference is passed). -/
def like (userId postId likeId notifId : String) (now : Nat) (s : DB) :
    Except TRPCErr Unit × DB :=
  match s.likes.find? (fun l => l.userId == userId && l.postId == some postId) with
  | some _ => (.error ⟨.BAD_REQUEST, "Post already liked"⟩, s)
  | none =>
    match s.posts.find? (fun p => p.id == postId) with
    | none => (.error ⟨.NOT_FOUND, "Post not found"⟩, s)
    | some post =>
      let s1 := { s with likes :=
        { id := likeId, createdAt := now, userId := userId,
          postId := some postId, commentId := none } :: s.likes }
      if post.userId ≠ userId then
        (.ok (),
         { s1 with notifications :=
            { id := notifId, type := "like", content := "liked your post",
              isRead := false, createdAt := now, receiverId := post.userId,
              senderId := some userId, postId := none, commentId := none,
              storyId := none, reelId := none, messageId := none }
            :: s1.notifications })
      else
        (.ok (), s1)

/-- postRouter.unlike: deleteMany of the caller's Like rows on the post; no
other table is touched. -/
def unlike (userId postId : String) (s : DB) : Except TRPCErr Unit × DB :=
  (.ok (),
   { s with likes := s.likes.filter fun l =>
      !(l.userId == userId && l.postId == some postId) })

/-- userRouter.register: reject when a user with the same email or username
exists (a plain thrown Error, modelled as a message string); otherwise insert
the new User row and return its id. -/
def register (name email username hashedPassword freshId : String) (now : Nat)
    (s : DB) : Except String String × DB :=
  match s.users.find? (fun u => u.email == some email || u.username == some username) with
  | some _ => (.error "User with this email or username already exists", s)
  | none =>
    (.ok freshId,
     { s with users :=
        { id := freshId, name := some name, email := some email,
          username := some username, hashedPassword := some hashedPassword,
          createdAt := now } :: s.users })

/-- storyRouter.viewStory: look the story up (NOT_FOUND when absent) together
with the caller's views of it; insert a StoryView row only when the caller has
none yet. -/
def viewStory (userId storyId viewId : String) (now : Nat) (s : DB) :
    Except TRPCErr Unit × DB :=
  match s.stories.find? (fun st => st.id == storyId) with
  | none => (.error ⟨.NOT_FOUND, "Story not found"⟩, s)
  | some _ =>
    let views := s.storyViews.filter fun v =>
      v.storyId == storyId && v.viewerId == userId
    if views.length == 0 then
      (.ok (),
       { s with storyViews :=
          { id := viewId, storyId := storyId, viewerId := userId,
            viewedAt := now } :: s.storyViews })
    else
      (.ok (), s)

/-- ORDER BY createdAt DESC for messages. -/
def msgOrder (a b : Message) : Bool := b.createdAt ≤ a.createdAt

/-- messageRouter.getConversation: page through the direct messages exchanged
with the other user (createdAt descending, cursor pagination, page returned in
ascending order), then updateMany stamping readAt on every message from the
other user to the caller whose readAt is null. -/
def getConversation (currentUserId otherUserId : String) (limit : Nat)
    (cursor : Option String) (now : Nat) (s : DB) :
    (List Message × Option String) × DB :=
  let convo := (s.messages.filter fun m =>
    ((m.senderId == currentUserId && m.receiverId == otherUserId) ||
     (m.senderId == otherUserId && m.receiverId == currentUserId)) &&
    m.groupId == none).mergeSort msgOrder
  let fetched := (cursorRows (fun m => m.id) cursor convo).take (limit + 1)
  let page :=
    if limit < fetched.length then
      (fetched.dropLast, fetched.getLast?.map fun m => m.id)
    else
      (fetched, none)
  ((page.1.reverse, page.2),
   { s with messages := s.messages.map fun m =>
      if m.senderId == otherUserId && m.receiverId == currentUserId &&
         m.readAt == none then { m with readAt := some now } else m })

/-- The per-conversation unread count of messageRouter.getRecentConversations:
direct messages from the other user to the caller with readAt null. -/
def unreadCountFor (currentUserId otherUserId : String) (s : DB) : Nat :=
  (s.messages.filter fun m =>
    m.senderId == otherUserId && m.receiverId == currentUserId &&
    m.readAt == none && m.groupId == none).length

/-- All StoryView rows are unique per (story, viewer) pair: the uniqueness
constraint StoryView_storyId_viewerId_key of the schema, phrased over the
list-of-rows state. -/
def storyViewUnique (s : DB) : Prop :=
  ∀ a b : String,
    (s.storyViews.filter fun v => v.storyId == a && v.viewerId == b).length ≤ 1

/- Concrete states used by witnesses and counterexamples. -/

/-- A user row for concrete runs. -/
def user1 : User :=
  { id := "u1", name := some "Alice", email := some "a@x.io",
    username := some "alice", hashedPassword := some "h1", createdAt := 0 }

/-- A second user row for concrete runs. -/
def user2 : User :=
  { id := "u2", name := some "Bob", email := some "b@x.io",
    username := some "bob", hashedPassword := some "h2", createdAt := 0 }

/-- A notification addressed to u1 from u2, unread. -/
def notif1 : Notification :=
  { id := "n1", type := "like", content := "liked your post", isRead := false,
    createdAt := 3, receiverId := "u1", senderId := some "u2", postId := none,
    commentId := none, storyId := none, reelId := none, messageId := none }

/-- An unread direct message from u2 to u1. -/
def msg1 : Message :=
  { id := "m1", content := "hi", contentType := "text", createdAt := 2,
    senderId := "u2", receiverId := "u1", readAt := none, groupId := none }

/-- A small concrete store: two users, one post p1 owned by u2, one story s1
by u2, one unread message from u2 to u1, one notification for u1. -/
def exDB : DB :=
  { users := [user1, user2],
    posts := [{ id := "p1", userId := "u2", createdAt := 1 }],
    likes := [],
    notifications := [notif1],
    stories := [{ id := "s1", userId := "u2", expiresAt := 100, createdAt := 1 }],
    storyViews := [],
    messages := [msg1] }

/-- exDB after u1 already liked p1. -/
def exDBLiked : DB :=
  { exDB with likes :=
      [{ id := "lk0", createdAt := 2, userId := "u1", postId := some "p1",
         commentId := none }] }

/-- Three notifications for u1 with distinct ids, createdAt descending. -/
def exNotifs : List Notification :=
  [{ notif1 with id := "na", createdAt := 30 },
   { notif1 with id := "nb", createdAt := 20 },
   { notif1 with id := "nc", createdAt := 10 }]

/-- C4: when a Like row for (u, p) already exists, the like call fails with
BAD_REQUEST and the whole store is unchanged (no second Like row, no
Notification row). -/
theorem like_duplicate_rejected (u p lid nid : String) (now : Nat) (s : DB)
    (h : ∃ lk ∈ s.likes, lk.userId = u ∧ lk.postId = some p) :
    (like u p lid nid now s).1 =
      .error ⟨.BAD_REQUEST, "Post already liked"⟩ ∧
    (like u p lid nid now s).2 = s := by
  have hsome : (s.likes.find? fun l => l.userId == u && l.postId == some p).isSome := by
    rw [List.find?_isSome]
    obtain ⟨lk, hmem, h1, h2⟩ := h
    exact ⟨lk, hmem, by simp [h1, h2]⟩
  obtain ⟨lk', hfind⟩ := Option.isSome_iff_exists.mp hsome
  simp [like, hfind]

/-- Witness for C4 at a concrete store in which u1 already liked p1. -/
theorem like_duplicate_rejected_witness :
    (like "u1" "p1" "lk1" "nt1" 5 exDBLiked).1 =
      .error ⟨.BAD_REQUEST, "Post already liked"⟩ ∧
    (like "u1" "p1" "lk1" "nt1" 5 exDBLiked).2 = exDBLiked :=
  like_duplicate_rejected "u1" "p1" "lk1" "nt1" 5 exDBLiked (by decide)

/-- C5: markAsRead on the notification the id lookup returns is rejected with
FORBIDDEN and leaves the store unchanged when the caller is not the receiver;
when the caller is the receiver it returns the row with isRead set and every
stored row with that id has isRead true afterwards. -/
theorem markAsRead_spec (u i : String) (s : DB) (n : Notification)
    (hfind : s.notifications.find? (fun m => m.id == i) = some n) :
    (n.receiverId ≠ u →
      (markAsRead u i s).1 = .error ⟨.FORBIDDEN,
        "You do not have permission to mark this notification as read"⟩ ∧
      (markAsRead u i s).2 = s) ∧
    (n.receiverId = u →
      (markAsRead u i s).1 = .ok { n with isRead := true } ∧
      (markAsRead u i s).2.notifications =
        s.notifications.map (fun m =>
          if m.id == i then { m with isRead := true } else m) ∧
      ∀ m ∈ (markAsRead u i s).2.notifications, m.id = i → m.isRead = true) := by
  constructor
  · intro hne
    simp [markAsRead, hfind, hne]
  · intro heq
    refine ⟨?_, ?_, ?_⟩
    · simp [markAsRead, hfind, heq]
    · simp [markAsRead, hfind, heq]
    · intro m hm hid
      simp only [markAsRead, hfind, heq, ne_eq, not_true_eq_false, if_false,
        List.mem_map] at hm
      obtain ⟨m', _, rfl⟩ := hm
      by_cases hc : (m'.id == i) = true
      · simp [hc]
      · simp only [if_neg hc] at hid ⊢
        exact absurd hid (by simpa using hc)

/-- Witness for C5: u2 may not mark u1's notification; u1 may. -/
theorem markAsRead_spec_witness :
    ((markAsRead "u2" "n1" exDB).1 = .error ⟨.FORBIDDEN,
        "You do not have permission to mark this notification as read"⟩ ∧
      (markAsRead "u2" "n1" exDB).2 = exDB) ∧
    (markAsRead "u1" "n1" exDB).1 = .ok { notif1 with isRead := true } :=
  ⟨(markAsRead_spec "u2" "n1" exDB notif1 (by decide)).1 (by decide),
   (((markAsRead_spec "u1" "n1" exDB notif1 (by decide)).2 rfl).1)⟩

/-- C6: markAllAsRead followed immediately by getUnreadCount for the same user
returns 0. -/
theorem markAllAsRead_then_getUnreadCount (u : String) (s : DB) :
    getUnreadCount u (markAllAsRead u s).2 = 0 := by
  simp only [getUnreadCount, markAllAsRead, List.length_eq_zero,
    List.filter_eq_nil_iff]
  intro a ha
  obtain ⟨n, _, rfl⟩ := List.mem_map.mp ha
  by_cases h : (n.receiverId == u && !n.isRead) = true
  · simp [h]
  · simp only [if_neg h]
    simp only [Bool.not_eq_true] at h
    simp [h]

/-- C7: unlike removes exactly the caller's Like rows on the post and leaves
every other table — in particular the Notification table — unchanged. -/
theorem unlike_frame (u p : String) (s : DB) :
    (unlike u p s).1 = .ok () ∧
    (unlike u p s).2.likes =
      s.likes.filter (fun l => !(l.userId == u && l.postId == some p)) ∧
    (unlike u p s).2.notifications = s.notifications ∧
    (unlike u p s).2.users = s.users ∧
    (unlike u p s).2.posts = s.posts ∧
    (unlike u p s).2.stories = s.stories ∧
    (unlike u p s).2.storyViews = s.storyViews ∧
    (unlike u p s).2.messages = s.messages :=
  ⟨rfl, rfl, rfl, rfl, rfl, rfl, rfl, rfl⟩

/-- C8: register with an email or username that an existing user already has
fails with the duplicate-user error and leaves the store (in particular the
user table) unchanged. -/
theorem register_duplicate_rejected (nm em un hp fid : String) (now : Nat)
    (s : DB) (h : ∃ u ∈ s.users, u.email = some em ∨ u.username = some un) :
    (register nm em un hp fid now s).1 =
      .error "User with this email or username already exists" ∧
    (register nm em un hp fid now s).2 = s := by
  have hsome : (s.users.find? fun u =>
      u.email == some em || u.username == some un).isSome := by
    rw [List.find?_isSome]
    obtain ⟨usr, hmem, hcase⟩ := h
    refine ⟨usr, hmem, ?_⟩
    cases hcase with
    | inl h1 => simp [h1]
    | inr h2 => simp [h2]
  obtain ⟨usr', hfind⟩ := Option.isSome_iff_exists.mp hsome
  simp [register, hfind]

/-- Witness for C8: registering with u1's email is rejected and exDB
unchanged. -/
theorem register_duplicate_rejected_witness :
    (register "Eve" "a@x.io" "eve" "h3" "u9" 9 exDB).1 =
      .error "User with this email or username already exists" ∧
    (register "Eve" "a@x.io" "eve" "h3" "u9" 9 exDB).2 = exDB :=
  register_duplicate_rejected "Eve" "a@x.io" "eve" "h3" "u9" 9 exDB (by decide)

/-- C1 counterexample: u1 likes the post p1 owned by u2 in the concrete store
exDB (whose notification table initially only holds notif1 for an unrelated
event); exactly one new Notification row is created, but its type is the
lowercase string "like" — not "LIKE" — and its postId is none — not p1 — so
the claimed row {type := "LIKE", postId := p} is never created. -/
theorem like_claim_counterexample :
    ((like "u1" "p1" "lk1" "nt1" 5 exDB).2.notifications.map fun n =>
        (n.type, n.postId)) = [("like", none), ("like", none)] ∧
    ((like "u1" "p1" "lk1" "nt1" 5 exDB).2.notifications.filter fun n =>
        n.type == "LIKE" || n.postId == some "p1") = [] ∧
    (like "u1" "p1" "lk1" "nt1" 5 exDB).2.notifications.length =
      exDB.notifications.length + 1 := by
  decide

/-- C1 amended: a first like by u on an existing post succeeds, adds exactly
one Like row {userId := u, postId := p}, and — when u does not own the post —
exactly one Notification row with receiverId the owner, senderId u, isRead
false, type the literal string "like" (not the schema enum value LIKE), and no
postId reference; when u owns the post, no notification is created. -/
theorem like_spec (u p lid nid : String) (now : Nat) (s : DB) (post : Post)
    (hnolike : s.likes.find?
      (fun l => l.userId == u && l.postId == some p) = none)
    (hpost : s.posts.find? (fun q => q.id == p) = some post) :
    (like u p lid nid now s).1 = .ok () ∧
    (like u p lid nid now s).2.likes =
      { id := lid, createdAt := now, userId := u, postId := some p,
        commentId := none } :: s.likes ∧
    (post.userId ≠ u →
      (like u p lid nid now s).2.notifications =
        { id := nid, type := "like", content := "liked your post",
          isRead := false, createdAt := now, receiverId := post.userId,
          senderId := some u, postId := none, commentId := none,
          storyId := none, reelId := none, messageId := none }
        :: s.notifications) ∧
    (post.userId = u →
      (like u p lid nid now s).2.notifications = s.notifications) := by
  refine ⟨?_, ?_, ?_, ?_⟩
  · by_cases h : post.userId = u <;> simp [like, hnolike, hpost, h]
  · by_cases h : post.userId = u <;> simp [like, hnolike, hpost, h]
  · intro h
    simp [like, hnolike, hpost, h]
  · intro h
    simp [like, hnolike, hpost, h]

/-- Witness for the amended C1: u1's first like of u2's post p1 in exDB. -/
theorem like_spec_witness :
    (like "u1" "p1" "lk1" "nt1" 5 exDB).1 = .ok () ∧
    (like "u1" "p1" "lk1" "nt1" 5 exDB).2.likes =
      [{ id := "lk1", createdAt := 5, userId := "u1", postId := some "p1",
         commentId := none }] ∧
    (like "u1" "p1" "lk1" "nt1" 5 exDB).2.notifications =
      { id := "nt1", type := "like", content := "liked your post",
        isRead := false, createdAt := 5, receiverId := "u2",
        senderId := some "u1", postId := none, commentId := none,
        storyId := none, reelId := none, messageId := none }
      :: exDB.notifications := by
  obtain ⟨h1, h2, h3, _⟩ :=
    like_spec "u1" "p1" "lk1" "nt1" 5 exDB
      { id := "p1", userId := "u2", createdAt := 1 } (by decide) (by decide)
  exact ⟨h1, by rw [h2]; decide, h3 (by decide)⟩

/-- C9: viewStory preserves the one-StoryView-per-(story, viewer) invariant,
and repeating the call with the same viewer and story (with any fresh id and
time) does not change the store again. -/
theorem viewStory_spec (u stId vid : String) (now : Nat) (s : DB)
    (hinv : storyViewUnique s) :
    storyViewUnique (viewStory u stId vid now s).2 ∧
    ∀ vid2 now2,
      (viewStory u stId vid2 now2 (viewStory u stId vid now s).2).2 =
        (viewStory u stId vid now s).2 := by
  cases hst : s.stories.find? (fun st => st.id == stId) with
  | none =>
    constructor
    · simpa [viewStory, hst] using hinv
    · intro vid2 now2
      simp [viewStory, hst]
  | some st =>
    by_cases hempty :
        (s.storyViews.filter fun v => v.storyId == stId && v.viewerId == u) = []
    · have hres : (viewStory u stId vid now s).2 =
          { s with storyViews :=
            { id := vid, storyId := stId, viewerId := u, viewedAt := now }
            :: s.storyViews } := by
        simp [viewStory, hst, hempty]
      constructor
      · intro a b
        rw [hres]
        simp only [List.filter_cons]
        by_cases hmatch : ((stId == a && u == b) = true)
        · have ha : stId = a := by
            have := hmatch
            simp only [Bool.and_eq_true, beq_iff_eq] at this
            exact this.1
          have hb : u = b := by
            have := hmatch
            simp only [Bool.and_eq_true, beq_iff_eq] at this
            exact this.2
          subst ha hb
          simp only [hmatch]
          simp [hempty]
        · simp only [hmatch]
          simpa using hinv a b
      · intro vid2 now2
        rw [hres]
        have hst2 : ({ s with storyViews :=
            { id := vid, storyId := stId, viewerId := u, viewedAt := now }
            :: s.storyViews } : DB).stories.find?
              (fun st => st.id == stId) = some st := hst
        simp [viewStory, hst2, List.filter_cons]
    · have hlen : ((s.storyViews.filter fun v =>
          v.storyId == stId && v.viewerId == u).length == 0) = false := by
        simp only [beq_eq_false_iff_ne, ne_eq, List.length_eq_zero]
        exact hempty
      have hres : (viewStory u stId vid now s).2 = s := by
        simp [viewStory, hst, hlen]
      rw [hres]
      constructor
      · exact hinv
      · intro vid2 now2
        simp [viewStory, hst, hlen]

/-- Witness for C9: u1 views u2's story s1 in exDB (which has no views yet and
trivially satisfies the invariant); afterwards the pair (s1, u1) still has at
most one view row and a repeat call is a no-op. -/
theorem viewStory_spec_witness :
    ((viewStory "u1" "s1" "v1" 7 exDB).2.storyViews.filter fun v =>
        v.storyId == "s1" && v.viewerId == "u1").length ≤ 1 ∧
    (viewStory "u1" "s1" "v2" 8 (viewStory "u1" "s1" "v1" 7 exDB).2).2 =
      (viewStory "u1" "s1" "v1" 7 exDB).2 := by
  obtain ⟨h1, h2⟩ := viewStory_spec "u1" "s1" "v1" 7 exDB (by
    intro a b
    simp [exDB])
  exact ⟨h1 "s1" "u1", h2 "v2" 8⟩

/-- C10: getConversation(v) called by u stamps readAt = now on every stored
direct message from v to u whose readAt was null, leaves every message not of
that shape (other conversations, messages sent by u, already-read rows)
unchanged, and the per-conversation unread count of v's messages to u is 0
immediately afterwards. -/
theorem getConversation_marks_read (u v : String) (L : Nat)
    (cur : Option String) (now : Nat) (s : DB) :
    unreadCountFor u v (getConversation u v L cur now s).2 = 0 ∧
    (∀ m ∈ s.messages, m.senderId = v → m.receiverId = u → m.readAt = none →
      { m with readAt := some now } ∈
        (getConversation u v L cur now s).2.messages) ∧
    (∀ m ∈ s.messages, ¬(m.senderId = v ∧ m.receiverId = u ∧ m.readAt = none) →
      m ∈ (getConversation u v L cur now s).2.messages) := by
  refine ⟨?_, ?_, ?_⟩
  · simp only [unreadCountFor, getConversation, List.length_eq_zero,
      List.filter_eq_nil_iff]
    intro a ha
    obtain ⟨m, _, rfl⟩ := List.mem_map.mp ha
    by_cases h : (m.senderId == v && m.receiverId == u && m.readAt == none) = true
    · simp [h]
    · simp only [if_neg h]
      intro hcontra
      apply h
      simp only [Bool.and_eq_true, beq_iff_eq] at hcontra ⊢
      tauto
  · intro m hm h1 h2 h3
    simp only [getConversation, List.mem_map]
    refine ⟨m, hm, ?_⟩
    simp [h1, h2, h3]
  · intro m hm hnot
    simp only [getConversation, List.mem_map]
    refine ⟨m, hm, ?_⟩
    by_cases h : (m.senderId == v && m.receiverId == u && m.readAt == none) = true
    · exfalso
      apply hnot
      simp only [Bool.and_eq_true, beq_iff_eq] at h
      exact ⟨h.1.1, h.1.2, h.2⟩
    · simp [h]

/-- Witness for C10: u1 opens the conversation with u2 in exDB; the unread
count of (u2 → u1) is 0 afterwards and the previously unread message m1 is now
stamped with readAt. -/
theorem getConversation_marks_read_witness :
    unreadCountFor "u1" "u2" (getConversation "u1" "u2" 5 none 9 exDB).2 = 0 ∧
    { msg1 with readAt := some 9 } ∈
      (getConversation "u1" "u2" 5 none 9 exDB).2.messages := by
  obtain ⟨h1, h2, _⟩ := getConversation_marks_read "u1" "u2" 5 none 9 exDB
  exact ⟨h1, h2 msg1 (by decide) rfl rfl rfl⟩

/-- Under C2/C3's data assumptions (every stored row belongs to the user and
the store is already in createdAt-descending order) the WHERE + ORDER BY stage
of getAll returns the dataset unchanged. -/
theorem filter_mergeSort_eq (u : String) (db : List Notification)
    (hrecv : ∀ n ∈ db, n.receiverId = u)
    (hsorted : db.Pairwise fun a b => notifOrder a b = true) :
    (db.filter fun n =>
      n.receiverId == u && (!(false : Bool) || !n.isRead)).mergeSort notifOrder
      = db := by
  have hfil : db.filter
      (fun n => n.receiverId == u && (!(false : Bool) || !n.isRead)) = db := by
    rw [List.filter_eq_self]
    intro a ha
    simp [hrecv a ha]
  rw [hfil]
  exact List.mergeSort_of_sorted hsorted

/-- With pairwise-distinct ids, positioning on the cursor x.id lands exactly
on the occurrence of x: dropWhile skips precisely the rows before it. -/
theorem dropWhile_cursor_eq (x : Notification) :
    ∀ (pre rest : List Notification),
      ((pre ++ x :: rest).map (fun n => n.id)).Nodup →
      (pre ++ x :: rest).dropWhile (fun n => !(n.id == x.id)) = x :: rest := by
  intro pre
  induction pre with
  | nil =>
    intro rest _
    simp [List.dropWhile_cons]
  | cons a pre ih =>
    intro rest h
    simp only [List.cons_append, List.map_cons, List.nodup_cons] at h
    have hne : a.id ≠ x.id := by
      intro heq
      apply h.1
      rw [heq]
      simp
    rw [List.cons_append, List.dropWhile_cons, if_pos (by simp [hne])]
    exact ih rest h.2

/-- Pagination invariant: if the ordered dataset decomposes as pre ++ suf and
the cursor positions on suf, then following nextCursor to exhaustion returns
exactly suf. -/
theorem getAllPages_suffix (u : String) (L : Nat) (db : List Notification)
    (hL : 1 ≤ L)
    (hrows : (db.filter fun n =>
      n.receiverId == u && (!(false : Bool) || !n.isRead)).mergeSort notifOrder
      = db)
    (hids : (db.map fun n => n.id).Nodup) :
    ∀ (fuel : Nat) (cursor : Option String) (pre suf : List Notification),
      db = pre ++ suf →
      cursorRows (fun n => n.id) cursor db = suf →
      suf.length < fuel →
      getAllPages u L fuel cursor db = suf := by
  intro fuel
  induction fuel with
  | zero =>
    intro cursor pre suf _ _ hlen
    omega
  | succ fuel ih =>
    intro cursor pre suf hdec hcur hlen
    by_cases hc : L < suf.length
    · have htake : (suf.take (L + 1)).length = L + 1 := by
        rw [List.length_take]
        omega
      have hgetLast : (suf.take (L + 1)).getLast? = some suf[L] := by
        rw [List.getLast?_eq_getElem?, htake]
        simp only [Nat.add_sub_cancel, List.getElem?_take_of_succ]
        exact List.getElem?_eq_getElem hc
      have hdropLast : (suf.take (L + 1)).dropLast = suf.take L := by
        rw [List.dropLast_eq_take, htake, List.take_take]
        simp
      have hga : getAll u L cursor false db =
          (suf.take L, some (suf[L]).id) := by
        simp only [getAll, hrows, hcur]
        rw [if_pos (by rw [htake]; omega), hgetLast, hdropLast]
        rfl
      have hdropL : suf.drop L = suf[L] :: suf.drop (L + 1) :=
        List.drop_eq_getElem_cons hc
      have hdec2 : db = (pre ++ suf.take L) ++ (suf[L] :: suf.drop (L + 1)) := by
        rw [List.append_assoc, ← hdropL, List.take_append_drop]
        exact hdec
      have hcur2 : cursorRows (fun n => n.id) (some (suf[L]).id) db =
          suf.drop L := by
        rw [hdropL]
        show (db.dropWhile fun n => !(n.id == (suf[L]).id)) =
          suf[L] :: suf.drop (L + 1)
        rw [hdec2]
        apply dropWhile_cursor_eq
        rw [← hdec2]
        exact hids
      have hlen2 : (suf.drop L).length < fuel := by
        rw [List.length_drop]
        omega
      simp only [getAllPages, hga]
      rw [ih (some (suf[L]).id) (pre ++ suf.take L) (suf.drop L)
        (by rw [List.append_assoc, List.take_append_drop]; exact hdec) hcur2 hlen2]
      exact List.take_append_drop L suf
    · have hfetched : (cursorRows (fun n => n.id) cursor db).take (L + 1)
          = suf := by
        rw [hcur]
        exact List.take_of_length_le (by omega)
      have hga : getAll u L cursor false db = (suf, none) := by
        simp only [getAll, hrows, hfetched]
        rw [if_neg (by omega)]
      simp only [getAllPages, hga]

/-- C2: on a dataset of N notifications all belonging to the user and stored
in createdAt-descending order, getAll with a valid limit L and no cursor
returns the first min(L, N) items (hence still createdAt-descending), and the
nextCursor is the id of the (L+1)-st item — present exactly when N > L. -/
theorem getAll_first_page (u : String) (L : Nat) (db : List Notification)
    (hL1 : 1 ≤ L) (hL2 : L ≤ 100)
    (hrecv : ∀ n ∈ db, n.receiverId = u)
    (hsorted : db.Pairwise fun a b => notifOrder a b = true) :
    (getAll u L none false db).1 = db.take L ∧
    (getAll u L none false db).1.length = min L db.length ∧
    (getAll u L none false db).2 = db[L]?.map (fun n => n.id) ∧
    ((getAll u L none false db).2.isSome ↔ L < db.length) := by
  have hrows := filter_mergeSort_eq u db hrecv hsorted
  have hcur : cursorRows (fun n => n.id) none db = db := rfl
  by_cases hc : L < db.length
  · have htake : (db.take (L + 1)).length = L + 1 := by
      rw [List.length_take]
      omega
    have hgetLast : (db.take (L + 1)).getLast? = some db[L] := by
      rw [List.getLast?_eq_getElem?, htake]
      simp only [Nat.add_sub_cancel, List.getElem?_take_of_succ]
      exact List.getElem?_eq_getElem hc
    have hdropLast : (db.take (L + 1)).dropLast = db.take L := by
      rw [List.dropLast_eq_take, htake, List.take_take]
      simp
    have hga : getAll u L none false db = (db.take L, some (db[L]).id) := by
      simp only [getAll, hrows, hcur]
      rw [if_pos (by rw [htake]; omega), hgetLast, hdropLast]
      rfl
    rw [hga]
    refine ⟨rfl, ?_, ?_, ?_⟩
    · rw [List.length_take]
    · rw [List.getElem?_eq_getElem hc]
      rfl
    · simpa using hc
  · have hfetched : db.take (L + 1) = db :=
      List.take_of_length_le (by omega)
    have hga : getAll u L none false db = (db, none) := by
      simp only [getAll, hrows, hcur, hfetched]
      rw [if_neg (by omega)]
    rw [hga]
    refine ⟨?_, ?_, ?_, ?_⟩
    · show db = db.take L
      exact (List.take_of_length_le (by omega)).symm
    · show db.length = min L db.length
      omega
    · show (none : Option String) = db[L]?.map (fun n => n.id)
      rw [List.getElem?_eq_none (by omega)]
      rfl
    · show (none : Option String).isSome ↔ L < db.length
      simp
      omega

/-- Witness for C2: the three-notification dataset exNotifs with limit 2. -/
theorem getAll_first_page_witness :
    (getAll "u1" 2 none false exNotifs).1 = exNotifs.take 2 ∧
    (getAll "u1" 2 none false exNotifs).1.length = min 2 exNotifs.length ∧
    (getAll "u1" 2 none false exNotifs).2 = exNotifs[2]?.map (fun n => n.id) ∧
    ((getAll "u1" 2 none false exNotifs).2.isSome ↔ 2 < exNotifs.length) :=
  getAll_first_page "u1" 2 exNotifs (by decide) (by decide)
    (by decide) (by decide)

/-- C3: on a dataset of N notifications all belonging to the user, stored in
createdAt-descending order with pairwise-distinct ids, starting getAll with no
cursor and following the returned nextCursor until it is absent concatenates
to exactly the full dataset — each item once, none skipped, in order. -/
theorem getAll_paginate_all (u : String) (L : Nat) (db : List Notification)
    (hL1 : 1 ≤ L) (hL2 : L ≤ 100)
    (hrecv : ∀ n ∈ db, n.receiverId = u)
    (hsorted : db.Pairwise fun a b => notifOrder a b = true)
    (hids : (db.map fun n => n.id).Nodup) :
    getAllPages u L (db.length + 1) none db = db :=
  getAllPages_suffix u L db hL1 (filter_mergeSort_eq u db hrecv hsorted) hids
    (db.length + 1) none [] db rfl rfl (by omega)

/-- Witness for C3: paginating exNotifs with limit 1 yields the dataset. -/
theorem getAll_paginate_all_witness :
    getAllPages "u1" 1 (exNotifs.length + 1) none exNotifs = exNotifs :=
  getAll_paginate_all "u1" 1 exNotifs (by decide) (by decide)
    (by decide) (by decide) (by decide)

end FyterMedia
